import Mathlib

/-!
Shallow embedding of the password generator `gen_pass.py` (repository
mbos/Scripts) and proofs about it.

Strings are modelled as `List Char`.  Python's random draws
(`random.randint`, `random.choice`, `random.sample`) are modelled as
executable functions of explicit natural-number seeds: `randint a b s`
returns `a + s % (b - a + 1)`, so every value of the interval `[a, b]`
is reached by some seed; `random.sample` is modelled by repeatedly
picking a remaining element by index and removing it, which is sampling
without replacement.  The SQLite word cache is modelled by an abstract
state (`DbToestand`): absent file, corrupt file, file whose `woorden`
table is missing, or a table holding a list of words.
-/

/-- Strings of the Python program, as lists of characters. -/
abbrev Str := List Char

/-- The apostrophe character, used by the word filter in
`download_and_create_database`. -/
def apostrof : Char := Char.ofNat 39

/-- Model of Python `random.randint(a, b)`: an arbitrary seed `s` is
reduced into the closed interval `[a, b]`. -/
def randint (a b s : Nat) : Nat := a + s % (b - a + 1)

/-- Model of Python `random.choice(l)`: pick the element at a
seed-determined index (with a default for the empty list, which Python
would reject). -/
def pyChoice (l : List α) (dflt : α) (s : Nat) : α := l.getD (s % l.length) dflt

/-- Model of Python `random.sample(l, k)`: repeatedly pick one of the
remaining elements by a seed-determined index and remove it, `k` times.
This is sampling without replacement. -/
def pySample (l : List α) : Nat → Nat → List α
  | 0, _ => []
  | k + 1, s =>
    if h : 0 < l.length then
      let i := s % l.length
      l.get ⟨i, Nat.mod_lt _ h⟩ :: pySample (l.eraseIdx i) k (s / l.length)
    else []

/-- The decimal digit character for `n % 10`, modelling Python
`str(random.randint(0, 9))`. -/
def cijferChar (n : Nat) : Char := Char.ofNat (48 + n % 10)

/-- Model of Python `str.capitalize()`: the first character is
upper-cased and ALL remaining characters are lower-cased. -/
def pyCapitalize : Str → Str
  | [] => []
  | c :: rest => c.toUpper :: rest.map Char.toLower

/-- Line 313 of `gen_pass.py`:
`gekozen_woorden[woord_index] = gekozen_woorden[woord_index].capitalize()`. -/
def capitalizeStap (woorden : List Str) (i : Nat) : List Str :=
  woorden.set i (pyCapitalize (woorden.getD i []))

/-- Model of Python `"-".join(words)`. -/
def joinHyphen : List Str → Str
  | [] => []
  | [w] => w
  | w :: rest => w ++ '-' :: joinHyphen rest

/-- Line 353 of `gen_pass.py`: the indices of the hyphen characters of
the base string. -/
def koppeltekenPosities (basis : Str) : List Nat :=
  (List.range basis.length).filter (fun i => basis.getD i ' ' == '-')

/-- The four insertion positions of `POSITIE_OPTIES`
(`["begin", "midden", "eind", "tussen_woorden"]`). -/
inductive Positie where
  | begin
  | midden
  | eind
  | tussenWoorden
deriving DecidableEq

/-- `POSITIE_OPTIES` in its source order. -/
def POSITIE_OPTIES : List Positie :=
  [Positie.begin, Positie.midden, Positie.eind, Positie.tussenWoorden]

/-- The random draws consumed by one call of `genereer_wachtwoord`,
made explicit: one seed per call of `random.randint` / `random.choice`
/ `random.sample` in the source, and a seed stream for the padding
digits. -/
structure Draws where
  aantalSeed : Nat
  sampleSeed : Nat
  hoofdSeed : Nat
  cijferSeed : Nat
  tekenSeed : Nat
  positieSeed : Nat
  middenSeed : Nat
  tussenSeed : Nat
  extraSeed : Nat → Nat

/-- A fixed all-zero draw, used for concrete evaluations. -/
def nulDraws : Draws :=
  { aantalSeed := 0, sampleSeed := 0, hoofdSeed := 0, cijferSeed := 0,
    tekenSeed := 0, positieSeed := 0, middenSeed := 0, tussenSeed := 0,
    extraSeed := fun _ => 0 }

/-- Line 301 of `gen_pass.py`:
`aantal_woorden = random.randint(min_aantal_woorden, min(max_aantal_woorden, len(woordenlijst)))`. -/
def kiesAantalWoorden (minAantal maxAantal n s : Nat) : Nat :=
  randint minAantal (min maxAantal n) s

/-- Lines 333-360 of `gen_pass.py`: place the digit and the special
character according to the chosen position option. -/
def plaatsTekens (gekozen : List Str) (aantal : Nat) (cijfer teken : Char)
    (positie : Positie) (middenSeed tussenSeed : Nat) : Str :=
  let basis := joinHyphen gekozen
  match positie with
  | Positie.begin => cijfer :: teken :: basis
  | Positie.eind => basis ++ [cijfer, teken]
  | Positie.midden =>
    let mIdx := randint 0 (aantal - 1) middenSeed
    let woord := gekozen.getD mIdx []
    let m := max 1 (woord.length / 2)
    joinHyphen (gekozen.set mIdx (woord.take m ++ cijfer :: teken :: woord.drop m))
  | Positie.tussenWoorden =>
    if basis.contains '-' && decide (1 < aantal) then
      let p := pyChoice (koppeltekenPosities basis) 0 tussenSeed
      basis.take p ++ cijfer :: teken :: basis.drop (p + 1)
    else basis ++ [cijfer, teken]

/-- Lines 300-360 of `gen_pass.py`: the candidate password before the
length check, i.e. word-count choice, sampling, capitalization of one
word, digit and special-character choice, and placement. -/
def bouwKandidaat (woordenlijst : List Str) (minAantal maxAantal : Nat)
    (specialeTekens : Str) (d : Draws) : Str :=
  let aantal := kiesAantalWoorden minAantal maxAantal woordenlijst.length d.aantalSeed
  let gekozenWoorden := pySample woordenlijst aantal d.sampleSeed
  let woordIndex := randint 0 (aantal - 1) d.hoofdSeed
  let gekozen := capitalizeStap gekozenWoorden woordIndex
  let cijfer := cijferChar (randint 0 9 d.cijferSeed)
  let teken := if specialeTekens.isEmpty then '!'
               else pyChoice specialeTekens '!' d.tekenSeed
  let positie := pyChoice POSITIE_OPTIES Positie.begin d.positieSeed
  plaatsTekens gekozen aantal cijfer teken positie d.middenSeed d.tussenSeed

/-- Lines 364-368 of `gen_pass.py`: the padding digits appended when the
candidate is too short. -/
def extraCijfers (n : Nat) (seeds : Nat → Nat) : Str :=
  (List.range n).map (fun i => cijferChar (randint 0 9 (seeds i)))

/-- `genereer_wachtwoord` (lines 291-376 of `gen_pass.py`): `none` when
the word list is smaller than the minimal word count (Python returns
`None`), otherwise the built candidate, padded with random digits up to
`min_wachtwoord_lengte` when it is too short. -/
def genereer_wachtwoord (woordenlijst : List Str)
    (minAantal maxAantal minWachtwoordLengte : Nat)
    (specialeTekens : Str) (d : Draws) : Option Str :=
  if woordenlijst.length < minAantal then none
  else
    let kandidaat := bouwKandidaat woordenlijst minAantal maxAantal specialeTekens d
    if kandidaat.length < minWachtwoordLengte then
      some (kandidaat ++ extraCijfers (minWachtwoordLengte - kandidaat.length) d.extraSeed)
    else some kandidaat

/-- `is_veilig_wachtwoord` (lines 279-289 of `gen_pass.py`), with the
same cascade of early-`false` checks. -/
def is_veilig_wachtwoord (wachtwoord : Str) (minWachtwoordLengte : Nat)
    (specialeTekens : Str) : Bool :=
  if wachtwoord.length < minWachtwoordLengte then false
  else if !wachtwoord.any Char.isUpper then false
  else if !wachtwoord.any Char.isDigit then false
  else if !wachtwoord.any (fun c => specialeTekens.contains c) then false
  else true

/-- The inner `while pogingen < max_pogingen` loop of
`genereer_meerdere_wachtwoorden` (lines 392-407): `fuel` is the number
of remaining attempts, `pog` the current attempt index (selecting the
draws of that attempt), and the final argument the current value of the
Python variable `wachtwoord`.  The loop result is the final value of
`wachtwoord`. -/
def wachtwoordPoging (woordenlijst : List Str)
    (minAantal maxAantal minWachtwoordLengte : Nat) (specialeTekens : Str)
    (draws : Nat → Draws) : Nat → Nat → Option Str → Option Str
  | 0, _, laatste => laatste
  | fuel + 1, pog, _ =>
    match genereer_wachtwoord woordenlijst minAantal maxAantal
        minWachtwoordLengte specialeTekens (draws pog) with
    | none => none
    | some kandidaat =>
      if is_veilig_wachtwoord kandidaat minWachtwoordLengte specialeTekens then
        some kandidaat
      else
        wachtwoordPoging woordenlijst minAantal maxAantal minWachtwoordLengte
          specialeTekens draws fuel (pog + 1) (some kandidaat)

/-- `genereer_meerdere_wachtwoorden` (lines 378-417 of `gen_pass.py`):
for each of the `aantal` slots run the bounded retry loop, and append
the final `wachtwoord` only when it is not `None` and passes
`is_veilig_wachtwoord` (line 409). -/
def genereer_meerdere_wachtwoorden (woordenlijst : List Str) (aantal : Nat)
    (minAantal maxAantal minWachtwoordLengte : Nat) (specialeTekens : Str)
    (maxPogingen : Nat) (draws : Nat → Nat → Draws) : List Str :=
  (List.range aantal).filterMap (fun i =>
    (wachtwoordPoging woordenlijst minAantal maxAantal minWachtwoordLengte
        specialeTekens (draws i) maxPogingen 0 none).bind (fun w =>
      if is_veilig_wachtwoord w minWachtwoordLengte specialeTekens then some w
      else none))

/-- Abstract state of the SQLite word cache file: the file is absent,
the file is present but corrupt (`PRAGMA integrity_check` fails, or any
`sqlite3.Error` is raised while inspecting it), the file is intact but
its `woorden` table is missing, or the `woorden` table holds the given
words (each stored with its length). -/
inductive DbToestand where
  | afwezig
  | corrupt
  | geenTabel
  | tabel (woorden : List Str)
deriving DecidableEq

/-- `check_and_repair_database` (lines 95-144 of `gen_pass.py`) as a
state transformer: it returns the boolean result together with the
cache state it leaves behind (a corrupt file is deleted; an absent
file, a missing table or an empty/filled table are left untouched). -/
def check_and_repair_database : DbToestand → Bool × DbToestand
  | DbToestand.afwezig => (false, DbToestand.afwezig)
  | DbToestand.corrupt => (false, DbToestand.afwezig)
  | DbToestand.geenTabel => (false, DbToestand.geenTabel)
  | DbToestand.tabel woorden => (decide (0 < woorden.length), DbToestand.tabel woorden)

/-- Model of Python `str.strip()`. -/
def pyStrip (w : Str) : Str :=
  ((w.dropWhile Char.isWhitespace).reverse.dropWhile Char.isWhitespace).reverse

/-- Model of Python `str.isalpha()`: nonempty and all characters
alphabetic. -/
def pyIsalpha (w : Str) : Bool := !w.isEmpty && w.all Char.isAlpha

/-- The word filter of lines 170-173 of `gen_pass.py`: strip each line,
keep it when it is alphabetic and holds no apostrophe. -/
def filterWoorden (regels : List Str) : List Str :=
  (regels.map pyStrip).filter (fun w => pyIsalpha w && !w.contains apostrof)

/-- The `cursor.executemany("INSERT INTO woorden ...", woorden_data)`
of line 180: the rows are inserted one by one into the (initially
empty) `woorden` table, whose `UNIQUE` constraint on `woord` makes the
insert of an already present word raise `sqlite3.IntegrityError`, which
aborts the whole batch: the rows before the offending one stay, the
offending row and everything after it are never inserted.  The boolean
records whether the batch ran to completion. -/
def voerBatchIn : List Str → List Str → Bool × List Str
  | [], rijen => (true, rijen)
  | w :: rest, rijen =>
    if w ∈ rijen then (false, rijen) else voerBatchIn rest (rijen ++ [w])

/-- `download_and_create_database` (lines 146-208 of `gen_pass.py`):
`fetch` is the fetched word list (`none` models a failed request).  On
fetch failure the partial database file is removed and the raised
`RuntimeError` is modelled as `none`; otherwise the filtered words are
batch-inserted (a swallowed `sqlite3.IntegrityError` leaving a partial
table, see `voerBatchIn`) and the open connection's rows are returned
together with the resulting cache state. -/
def download_and_create_database (fetch : Option (List Str)) :
    Option (List Str) × DbToestand :=
  match fetch with
  | none => (none, DbToestand.afwezig)
  | some regels =>
    let rijen := (voerBatchIn (filterWoorden regels) []).2
    (some rijen, DbToestand.tabel rijen)

/-- `get_woorden_from_database` (lines 210-227 of `gen_pass.py`): the
words whose stored length lies in `[min_woord_lengte, max_woord_lengte]`. -/
def get_woorden_from_database (rijen : List Str) (minL maxL : Nat) : List Str :=
  rijen.filter (fun w => decide (minL ≤ w.length) && decide (w.length ≤ maxL))

/-- `download_woordenlijst` (lines 248-277 of `gen_pass.py`): use the
cache when `check_and_repair_database` accepts it, otherwise rebuild it
via `download_and_create_database`; on any failure the caught exception
makes the function return the empty list. -/
def download_woordenlijst (db : DbToestand) (fetch : Option (List Str))
    (minL maxL : Nat) : List Str × DbToestand :=
  let p := check_and_repair_database db
  if p.1 then
    match p.2 with
    | DbToestand.tabel woorden => (get_woorden_from_database woorden minL maxL, p.2)
    | _ => ([], p.2)
  else
    match download_and_create_database fetch with
    | (none, db2) => ([], db2)
    | (some rijen, db2) => (get_woorden_from_database rijen minL maxL, db2)

/-- Modelled from the spec: the capitalization claimed by the spec,
upper-casing the first letter while leaving the remaining letters
unchanged (to be compared with `pyCapitalize`). -/
def hoofdletterSpec : Str → Str
  | [] => []
  | c :: rest => c.toUpper :: rest

/-! ### Helper lemmas -/

theorem le_randint (a b s : Nat) : a ≤ randint a b s := Nat.le_add_right a _

theorem randint_le (a b s : Nat) (h : a ≤ b) : randint a b s ≤ b := by
  unfold randint
  have hm : s % (b - a + 1) < b - a + 1 := Nat.mod_lt _ (Nat.succ_pos _)
  omega

theorem randint_eq_of_mem (a b v : Nat) (h1 : a ≤ v) (h2 : v ≤ b) :
    randint a b (v - a) = v := by
  unfold randint
  have : (v - a) % (b - a + 1) = v - a := Nat.mod_eq_of_lt (by omega)
  omega

theorem randint_lt (a s : Nat) (h : 1 ≤ a) : randint 0 (a - 1) s < a := by
  unfold randint
  have h2 : s % (a - 1 - 0 + 1) < a - 1 - 0 + 1 := Nat.mod_lt _ (by omega)
  omega

theorem pySample_length (l : List α) (k s : Nat) (h : k ≤ l.length) :
    (pySample l k s).length = k := by
  induction k generalizing l s with
  | zero => rfl
  | succ n ih =>
    have hpos : 0 < l.length := by omega
    rw [pySample, dif_pos hpos]
    have he : (l.eraseIdx (s % l.length)).length = l.length - 1 :=
      List.length_eraseIdx_of_lt (Nat.mod_lt _ hpos)
    simp only [List.length_cons]
    rw [ih _ _ (by omega)]

theorem pySample_subset (l : List α) (k s : Nat) (w : α)
    (hw : w ∈ pySample l k s) : w ∈ l := by
  induction k generalizing l s with
  | zero => cases hw
  | succ n ih =>
    rw [pySample] at hw
    by_cases hpos : 0 < l.length
    · rw [dif_pos hpos] at hw
      rcases List.mem_cons.mp hw with h | h
      · exact h ▸ List.getElem_mem _
      · exact List.eraseIdx_subset _ _ (ih _ _ h)
    · rw [dif_neg hpos] at hw
      cases hw

theorem pySample_nodup [DecidableEq α] (l : List α) (k s : Nat) (h : l.Nodup) :
    (pySample l k s).Nodup := by
  induction k generalizing l s with
  | zero => exact List.nodup_nil
  | succ n ih =>
    rw [pySample]
    by_cases hpos : 0 < l.length
    · rw [dif_pos hpos]
      refine List.nodup_cons.mpr ⟨?_, ih _ _ (h.eraseIdx _)⟩
      intro hm
      have hm2 := pySample_subset _ _ _ _ hm
      rw [← h.erase_getElem _ (Nat.mod_lt _ hpos)] at hm2
      exact (h.mem_erase_iff.mp hm2).1 rfl
    · rw [dif_neg hpos]
      exact List.nodup_nil

theorem mem_joinHyphen {c : Char} {w : Str} {l : List Str}
    (hw : w ∈ l) (hc : c ∈ w) : c ∈ joinHyphen l := by
  induction l with
  | nil => cases hw
  | cons a t ih =>
    cases t with
    | nil =>
      rw [List.mem_singleton] at hw
      subst hw
      exact hc
    | cons b t2 =>
      rw [show joinHyphen (a :: b :: t2) = a ++ '-' :: joinHyphen (b :: t2) from rfl]
      rcases List.mem_cons.mp hw with h | h
      · exact List.mem_append_left _ (h ▸ hc)
      · exact List.mem_append_right _ (List.mem_cons_of_mem _ (ih h))

theorem mem_set_of_lt (l : List α) (i : Nat) (a : α) (h : i < l.length) :
    a ∈ l.set i a := by
  have h2 : i < (l.set i a).length := by simpa using h
  have h3 : (l.set i a)[i] = a := List.getElem_set_self h2
  have h4 := List.getElem_mem h2
  rwa [h3] at h4

theorem cijferChar_isDigit (n : Nat) : (cijferChar n).isDigit = true := by
  unfold cijferChar
  have h : n % 10 < 10 := Nat.mod_lt _ (by norm_num)
  interval_cases h2 : n % 10 <;> decide

theorem cijferChar_mem_extraCijfers {c : Char} {n : Nat} {seeds : Nat → Nat}
    (hc : c ∈ extraCijfers n seeds) : c.isDigit = true := by
  unfold extraCijfers at hc
  rcases List.mem_map.mp hc with ⟨i, _, hi⟩
  exact hi ▸ cijferChar_isDigit _

theorem extraCijfers_length (n : Nat) (seeds : Nat → Nat) :
    (extraCijfers n seeds).length = n := by
  simp [extraCijfers]

theorem teken_mem_plaatsTekens (gekozen : List Str) (aantal : Nat)
    (cijfer teken : Char) (pos : Positie) (ms ts : Nat)
    (hlen : gekozen.length = aantal) (h1 : 1 ≤ aantal) :
    teken ∈ plaatsTekens gekozen aantal cijfer teken pos ms ts := by
  cases pos with
  | begin =>
    exact List.mem_cons_of_mem _ (List.mem_cons_self _ _)
  | eind =>
    exact List.mem_append_right _ (by simp)
  | midden =>
    have hmIdx : randint 0 (aantal - 1) ms < gekozen.length := by
      rw [hlen]
      exact randint_lt _ _ h1
    refine mem_joinHyphen (mem_set_of_lt _ _ _ hmIdx) ?_
    exact List.mem_append_right _ (List.mem_cons_of_mem _ (List.mem_cons_self _ _))
  | tussenWoorden =>
    simp only [plaatsTekens]
    split
    · exact List.mem_append_right _ (List.mem_cons_of_mem _ (List.mem_cons_self _ _))
    · exact List.mem_append_right _ (by simp)

theorem uitroepteken_mem_bouwKandidaat (vocab : List Str) (minA maxA : Nat)
    (d : Draws) (h0 : 1 ≤ minA) (h1 : minA ≤ maxA) (h2 : minA ≤ vocab.length) :
    '!' ∈ bouwKandidaat vocab minA maxA [] d := by
  simp only [bouwKandidaat, List.isEmpty_nil, if_true]
  apply teken_mem_plaatsTekens
  · have hmin : minA ≤ min maxA vocab.length := le_min h1 h2
    have hub := randint_le minA (min maxA vocab.length) d.aantalSeed hmin
    unfold capitalizeStap
    rw [List.length_set]
    exact pySample_length _ _ _ (le_trans hub (min_le_right _ _))
  · exact le_trans h0 (le_randint _ _ _)

/-! ### The claims -/

/-- C1: every password string in the list returned by
`genereer_meerdere_wachtwoorden` satisfies `is_veilig_wachtwoord` for
the given minimal password length and special-character set, for every
valid constraint set and non-empty vocabulary (line 409 appends a
candidate only after it passes the validity predicate). -/
theorem genereer_meerdere_alle_veilig (vocab : List Str)
    (aantal minA maxA minLen maxPog : Nat) (st : Str) (draws : Nat → Nat → Draws)
    (h1 : minA ≤ maxA) (h2 : st ≠ []) (h3 : 1 ≤ maxPog) (h4 : vocab ≠ [])
    (w : Str)
    (hw : w ∈ genereer_meerdere_wachtwoorden vocab aantal minA maxA minLen st maxPog draws) :
    is_veilig_wachtwoord w minLen st = true := by
  simp only [genereer_meerdere_wachtwoorden, List.mem_filterMap] at hw
  obtain ⟨i, -, hi⟩ := hw
  rcases Option.bind_eq_some.mp hi with ⟨c, -, hcw⟩
  by_cases hv : is_veilig_wachtwoord c minLen st = true
  · rw [if_pos hv] at hcw
    exact (Option.some.injEq _ _ ▸ hcw) ▸ hv
  · rw [if_neg hv] at hcw
    cases hcw

/-- C1 witness: a concrete batch of one password; the produced password
satisfies the validity predicate. -/
theorem genereer_meerdere_alle_veilig_witness :
    is_veilig_wachtwoord ['0', '!', 'A', 'b', 'c', 'd'] 4 ['!'] = true :=
  genereer_meerdere_alle_veilig [['a', 'b', 'c', 'd']] 1 1 1 4 3 ['!']
    (fun _ _ => nulDraws) (by decide) (by decide) (by decide) (by decide)
    ['0', '!', 'A', 'b', 'c', 'd'] (by decide)

/-- C2 counterexample: the claim says the chosen word is modified by
upper-casing its first letter while all remaining letters stay
unchanged (`hoofdletterSpec`); the code applies Python
`str.capitalize()`, which also lower-cases the remaining letters, so on
the word "IJ" the claimed and actual results differ: the code yields
"Ij", not "IJ". -/
theorem capitalize_verlaagt_rest :
    capitalizeStap [['I', 'J']] 0 ≠ [hoofdletterSpec ['I', 'J']] ∧
    capitalizeStap [['I', 'J']] 0 = [['I', 'j']] := by
  decide

/-- C2 amended: in every candidate, exactly one sampled word (the one
at the drawn index) is replaced by its Python capitalization — first
letter upper-cased, remaining letters LOWER-cased — and all other
sampled words are left entirely unchanged. -/
theorem capitalizeStap_exact (woorden : List Str) (i : Nat)
    (h : i < woorden.length) :
    (capitalizeStap woorden i).length = woorden.length ∧
    (capitalizeStap woorden i).getD i [] = pyCapitalize (woorden.getD i []) ∧
    (∀ j, j ≠ i → (capitalizeStap woorden i).getD j [] = woorden.getD j []) ∧
    ∀ w : Str, w ≠ [] →
      (pyCapitalize w).headD ' ' = (w.headD ' ').toUpper ∧
      (pyCapitalize w).drop 1 = (w.drop 1).map Char.toLower := by
  refine ⟨by simp [capitalizeStap], ?_, ?_, ?_⟩
  · unfold capitalizeStap
    rw [List.getD_eq_getElem?_getD, List.getElem?_set_self (by simpa using h)]
    rfl
  · intro j hj
    unfold capitalizeStap
    rw [List.getD_eq_getElem?_getD, List.getElem?_set_ne (Ne.symm hj),
      List.getD_eq_getElem?_getD]
  · intro w hw
    match w with
    | c :: rest => exact ⟨rfl, rfl⟩

/-- C2 witness: the capitalization step applied at index 0 of a
two-word list. -/
theorem capitalizeStap_exact_witness :
    (capitalizeStap [['i', 'j'], ['k', 'l']] 0).length = 2 ∧
    (capitalizeStap [['i', 'j'], ['k', 'l']] 0).getD 0 [] =
      pyCapitalize (([['i', 'j'], ['k', 'l']] : List Str).getD 0 []) ∧
    (capitalizeStap [['i', 'j'], ['k', 'l']] 0).getD 1 [] =
      ([['i', 'j'], ['k', 'l']] : List Str).getD 1 [] ∧
    (pyCapitalize ['i', 'j']).headD ' ' = ((['i', 'j'] : Str).headD ' ').toUpper ∧
    (pyCapitalize ['i', 'j']).drop 1 = ((['i', 'j'] : Str).drop 1).map Char.toLower := by
  obtain ⟨p1, p2, p3, p4⟩ :=
    capitalizeStap_exact [['i', 'j'], ['k', 'l']] 0 (by decide)
  obtain ⟨q1, q2⟩ := p4 ['i', 'j'] (by decide)
  exact ⟨p1, p2, p3 1 (by decide), q1, q2⟩

/-- C3 counterexample: with no cache (`afwezig`) and a failed fetch
(`none`), `download_woordenlijst` returns the empty word list — there
is no embedded built-in fallback word list in the code, contradicting
the claim that it "returns those words rather than an empty result". -/
theorem geen_fallback_lijst :
    (download_woordenlijst DbToestand.afwezig none 4 10).1 = ([] : List Str) := by
  decide

/-- C3 amended: when the remote fetch fails and no usable cache exists
(the integrity check rejects the cache state), `download_woordenlijst`
returns the EMPTY list — no built-in fallback exists; the partial
database file is removed, and the caller is left to treat the empty
vocabulary as fatal. -/
theorem fetch_mislukt_geeft_lege_lijst (db : DbToestand) (minL maxL : Nat)
    (h : (check_and_repair_database db).1 = false) :
    download_woordenlijst db none minL maxL = ([], DbToestand.afwezig) := by
  cases db <;> simp_all [download_woordenlijst, check_and_repair_database,
    download_and_create_database]

/-- C3 witness: a corrupt cache together with a failed fetch yields the
empty word list. -/
theorem fetch_mislukt_geeft_lege_lijst_witness :
    download_woordenlijst DbToestand.corrupt none 4 10 = ([], DbToestand.afwezig) :=
  fetch_mislukt_geeft_lege_lijst DbToestand.corrupt 4 10 (by decide)

/-- C4: evaluation of the cache rebuild at the failing input
`["aa", "aa", "bb"]`.  The claim (and the spec's "duplicates ignored,
not an error") requires "bb" to be persisted even though "aa" occurs
twice; the code's single `executemany` of a plain `INSERT` instead
aborts at the duplicate "aa" — the swallowed `sqlite3.IntegrityError`
leaves only `["aa"]` in the table and "bb" is never stored. -/
theorem dubbel_woord_breekt_batch_af :
    (download_and_create_database (some [['a', 'a'], ['a', 'a'], ['b', 'b']])).1 =
      some [['a', 'a']] ∧
    (voerBatchIn [['a', 'a'], ['a', 'a'], ['b', 'b']] []).1 = false ∧
    ['b', 'b'] ∉ (voerBatchIn [['a', 'a'], ['a', 'a'], ['b', 'b']] []).2 := by
  decide

/-- C5: for every duplicate-free vocabulary with fewer words than the
minimal word count, `genereer_wachtwoord` returns `none` for every
draw, and the batch generator returns the empty list (each slot is
skipped, no exception). -/
theorem onvoldoende_woorden (vocab : List Str)
    (aantal minA maxA minLen maxPog : Nat) (st : Str) (draws : Nat → Nat → Draws)
    (hnd : vocab.Nodup) (h : vocab.length < minA) :
    (∀ d, genereer_wachtwoord vocab minA maxA minLen st d = none) ∧
    genereer_meerdere_wachtwoorden vocab aantal minA maxA minLen st maxPog draws = [] := by
  have hg : ∀ d, genereer_wachtwoord vocab minA maxA minLen st d = none := by
    intro d
    unfold genereer_wachtwoord
    rw [if_pos h]
  refine ⟨hg, ?_⟩
  have hp : ∀ dr fuel pog,
      wachtwoordPoging vocab minA maxA minLen st dr fuel pog none = none := by
    intro dr fuel pog
    cases fuel with
    | zero => rfl
    | succ n =>
      rw [wachtwoordPoging, hg]
  rw [genereer_meerdere_wachtwoorden, List.filterMap_eq_nil_iff]
  intro i _
  rw [hp]
  rfl

/-- C5 witness: a requested batch of 5 with a 2-word vocabulary and a
minimal word count of 3 returns 0 passwords. -/
theorem onvoldoende_woorden_witness :
    genereer_meerdere_wachtwoorden [['f', 'i', 'e', 't', 's'], ['t', 'u', 'l', 'p']]
      5 3 4 10 ['!'] 20 (fun _ _ => nulDraws) = [] :=
  (onvoldoende_woorden [['f', 'i', 'e', 't', 's'], ['t', 'u', 'l', 'p']]
    5 3 4 10 20 ['!'] (fun _ _ => nulDraws) (by decide) (by decide)).2

/-- C6: every candidate returned by `genereer_wachtwoord` has length at
least `min_wachtwoord_lengte`, and it is the constructed candidate
(`bouwKandidaat`) followed only by appended digit characters — padding
digits are appended at the end, never inserted mid-string. -/
theorem wachtwoord_lengte_en_padding (vocab : List Str)
    (minA maxA minLen : Nat) (st : Str) (d : Draws) (w : Str)
    (hw : genereer_wachtwoord vocab minA maxA minLen st d = some w) :
    minLen ≤ w.length ∧
    ∃ extra : Str, w = bouwKandidaat vocab minA maxA st d ++ extra ∧
      ∀ c ∈ extra, c.isDigit = true := by
  simp only [genereer_wachtwoord] at hw
  split_ifs at hw with h1 h2
  · rw [Option.some.injEq] at hw
    subst hw
    constructor
    · rw [List.length_append, extraCijfers_length]
      omega
    · exact ⟨_, rfl, fun c hc => cijferChar_mem_extraCijfers hc⟩
  · rw [Option.some.injEq] at hw
    subst hw
    refine ⟨by omega, [], (List.append_nil _).symm, by simp⟩

/-- C6 witness: a concrete candidate that needed padding from 6 to 10
characters; the padding is a suffix of digits. -/
theorem wachtwoord_lengte_en_padding_witness :
    10 ≤ (['0', '!', 'A', 'b', 'c', 'd', '0', '0', '0', '0'] : Str).length ∧
    ∃ extra : Str,
      (['0', '!', 'A', 'b', 'c', 'd', '0', '0', '0', '0'] : Str) =
        bouwKandidaat [['a', 'b', 'c', 'd']] 1 1 ['!'] nulDraws ++ extra ∧
      ∀ c ∈ extra, c.isDigit = true :=
  wachtwoord_lengte_en_padding [['a', 'b', 'c', 'd']] 1 1 10 ['!'] nulDraws
    ['0', '!', 'A', 'b', 'c', 'd', '0', '0', '0', '0'] (by decide)

/-- C7: for every duplicate-free vocabulary with at least the minimal
word count many words, the drawn word count always lies in the interval
from `min_aantal_woorden` to `min(max_aantal_woorden, |vocab|)` (the
maximum is clamped to the vocabulary size), every value of that
interval is reached by some seed, and the sample of that many words has
exactly that length, repeats no word, and draws only vocabulary
words. -/
theorem aantal_en_sample (vocab : List Str) (minA maxA s t : Nat)
    (hnd : vocab.Nodup) (h1 : minA ≤ maxA) (h2 : minA ≤ vocab.length) :
    minA ≤ kiesAantalWoorden minA maxA vocab.length s ∧
    kiesAantalWoorden minA maxA vocab.length s ≤ min maxA vocab.length ∧
    (∀ v, minA ≤ v → v ≤ min maxA vocab.length →
      ∃ s2, kiesAantalWoorden minA maxA vocab.length s2 = v) ∧
    (pySample vocab (kiesAantalWoorden minA maxA vocab.length s) t).length =
      kiesAantalWoorden minA maxA vocab.length s ∧
    (pySample vocab (kiesAantalWoorden minA maxA vocab.length s) t).Nodup ∧
    ∀ w ∈ pySample vocab (kiesAantalWoorden minA maxA vocab.length s) t, w ∈ vocab := by
  have hmin : minA ≤ min maxA vocab.length := le_min h1 h2
  have hub := randint_le minA (min maxA vocab.length) s hmin
  refine ⟨le_randint _ _ _, hub, ?_, ?_, pySample_nodup _ _ _ hnd,
    fun w hw => pySample_subset _ _ _ _ hw⟩
  · intro v hv1 hv2
    exact ⟨v - minA, randint_eq_of_mem _ _ _ hv1 hv2⟩
  · exact pySample_length _ _ _ (le_trans hub (min_le_right _ _))

/-- C7 witness: a two-word vocabulary with word-count interval `[1, 2]`;
the drawn count is in range, the value 2 is reachable, and the sample
has the drawn length and no duplicates. -/
theorem aantal_en_sample_witness :
    1 ≤ kiesAantalWoorden 1 2 2 0 ∧
    kiesAantalWoorden 1 2 2 0 ≤ min 2 2 ∧
    (∃ s2, kiesAantalWoorden 1 2 2 s2 = 2) ∧
    (pySample [['a'], ['b']] (kiesAantalWoorden 1 2 2 0) 0).length =
      kiesAantalWoorden 1 2 2 0 ∧
    (pySample [['a'], ['b']] (kiesAantalWoorden 1 2 2 0) 0).Nodup := by
  obtain ⟨p1, p2, p3, p4, p5, -⟩ :=
    aantal_en_sample [['a'], ['b']] 1 2 0 0 (by decide) (by decide) (by decide)
  exact ⟨p1, p2, p3 2 (by decide) (by decide), p4, p5⟩

/-- C8: the validity predicate returns `true` if and only if the
password is at least the minimal length and contains an uppercase
letter, a digit, and a character of the configured special set. -/
theorem is_veilig_wachtwoord_iff (w : Str) (minLen : Nat) (st : Str) :
    is_veilig_wachtwoord w minLen st = true ↔
      (minLen ≤ w.length ∧ (∃ c ∈ w, c.isUpper = true) ∧
        (∃ c ∈ w, c.isDigit = true) ∧ (∃ c ∈ w, c ∈ st)) := by
  unfold is_veilig_wachtwoord
  split_ifs with h1 h2 h3 h4 <;>
    simp_all [List.any_eq_true, Nat.not_lt, List.elem_eq_mem]

/-- C9: the cache integrity check is idempotent on its boolean result:
run twice in a row (the second run starting from the state the first
run leaves behind), it returns the same boolean both times. -/
theorem check_and_repair_database_idempotent (db : DbToestand) :
    (check_and_repair_database (check_and_repair_database db).2).1 =
      (check_and_repair_database db).1 := by
  cases db <;> rfl

/-- C10: called with an empty special-character set,
`genereer_wachtwoord` does not fail: it substitutes the fixed
character "!" for the special character, so the returned candidate
contains "!". -/
theorem lege_speciale_tekens_geeft_uitroepteken (vocab : List Str)
    (minA maxA minLen : Nat) (d : Draws)
    (h0 : 1 ≤ minA) (h1 : minA ≤ maxA) (h2 : minA ≤ vocab.length) :
    ∃ w, genereer_wachtwoord vocab minA maxA minLen [] d = some w ∧ '!' ∈ w := by
  have hmem := uitroepteken_mem_bouwKandidaat vocab minA maxA d h0 h1 h2
  simp only [genereer_wachtwoord]
  rw [if_neg (Nat.not_lt.mpr h2)]
  split_ifs with hl
  · exact ⟨_, rfl, List.mem_append_left _ hmem⟩
  · exact ⟨_, rfl, hmem⟩

/-- C10 witness: a three-word vocabulary and an empty special set; the
generated candidate exists and contains "!". -/
theorem lege_speciale_tekens_geeft_uitroepteken_witness :
    ∃ w, genereer_wachtwoord [['a', 'b'], ['c', 'd'], ['e', 'f']] 3 3 20 []
      nulDraws = some w ∧ '!' ∈ w :=
  lege_speciale_tekens_geeft_uitroepteken [['a', 'b'], ['c', 'd'], ['e', 'f']]
    3 3 20 nulDraws (by decide) (by decide) (by decide)
